import Mathlib

/-!
Shallow embedding of the arbitrage cost/profit core of the repository
(`agents/simple/arbitrage_detector_agent.py` and
`agents/simple/investment_optimizer_agent.py`).

Conventions of the embedding:
* Python floats are modelled as exact rationals (`ℚ`); the presentation-only
  `round(x, n)` calls applied to output fields are omitted.
* Python dicts of DEX fees are modelled as insertion-ordered association
  lists `List (String × ℚ)`; `dict.get(k, d)` becomes `lookupQ` + `getD`.
* Python's `x or y` on floats (where `0.0` is falsy) is modelled by `pyOr`.
* A Python function that can raise (caught by the surrounding
  `try/except` and turned into a `{"status": "error"}` payload) is modelled
  as `Except String _`; in `_calculate_charges` the only reachable raise for
  numeric inputs is the `ZeroDivisionError` at `total_charges / trade_amount`
  when the trade amount is zero.
* The spread model's magic sentinel `-999.0` is kept as the rational `-999`.
-/

/-- The per-request price set `self.current_prices`: token symbol → USD price. -/
structure Prices where
  apt : ℚ
  usdc : ℚ
  usdt : ℚ
deriving DecidableEq, Repr

/-- Default prices installed by `__init__` (apt 12.45, usdc 1.00, usdt 0.999). -/
def default_prices : Prices := { apt := 1245/100, usdc := 1, usdt := 999/1000 }

/-- First-match lookup in an insertion-ordered association list,
modelling Python `dict.get`. -/
def lookupQ (fees : List (String × ℚ)) (k : String) : Option ℚ :=
  match fees with
  | [] => none
  | (k', v) :: rest => if k' = k then some v else lookupQ rest k

/-- Python `x or y` for an optional float `x`: `None` and `0.0` are falsy. -/
def pyOr (x : Option ℚ) (y : ℚ) : ℚ :=
  match x with
  | none => y
  | some v => if v = 0 then y else v

/-- Risk tiers LOW/MEDIUM/HIGH/VERY_HIGH. -/
inductive RiskLevel where
  | LOW
  | MEDIUM
  | HIGH
  | VERY_HIGH
deriving DecidableEq, Repr

namespace Detector

/-- `self.gas_unit_costs["swap"]` — gas units for a swap. -/
def gas_unit_costs_swap : ℕ := 1000

/-- `_calculate_gas_cost_apt("swap", gas_unit_price)`:
`gas_units × gas_unit_price / 100_000_000` octas → APT. -/
def calculate_gas_cost_apt (gas_unit_price : ℕ) : ℚ :=
  (gas_unit_costs_swap * gas_unit_price : ℕ) / 100000000

/-- `_estimate_slippage`: the detector's four-band step function of the
trade amount in USD. -/
def estimate_slippage (trade_amount : ℚ) : ℚ :=
  if trade_amount < 1000 then 2/100
  else if trade_amount < 5000 then 5/100
  else if trade_amount < 20000 then 15/100
  else 30/100

/-- `_assess_risk_level` in the detector. -/
def assess_risk_level (profit_margin : ℚ) (trade_amount : ℚ) : RiskLevel :=
  if profit_margin > 1 ∧ trade_amount < 10000 then .LOW
  else if profit_margin > 1/2 ∧ trade_amount < 50000 then .MEDIUM
  else if profit_margin > 1/5 then .HIGH
  else .VERY_HIGH

/-- The generic keys excluded when extracting DEX names from
`custom_dex_fees` (`{"Smart Contract", "default", "fee", "from_dex", "to_dex"}`). -/
def generic_keys : List String := ["Smart Contract", "default", "fee", "from_dex", "to_dex"]

/-- The non-generic DEX identifiers appearing as keys of `custom_dex_fees`
(`specific_dex_names` / `available_dexs` in the source). -/
def specific_dex_names (custom_dex_fees : List (String × ℚ)) : List String :=
  (custom_dex_fees.map Prod.fst).filter (fun k => ¬ k ∈ generic_keys)

/-- The DEX-fee resolution of `_calculate_charges` for one leg: exact key
match when specific DEX names exist (default 0.25), else the symmetric
"Smart Contract" fee, else `default`/`fee`/first value via Python `or`,
else 0 when no fees were supplied at all. -/
def resolve_dex_fee (custom_dex_fees : List (String × ℚ)) (dex : String) : ℚ :=
  if custom_dex_fees = [] then 0
  else if specific_dex_names custom_dex_fees ≠ [] then
    (lookupQ custom_dex_fees dex).getD (25/100)
  else
    match lookupQ custom_dex_fees "Smart Contract" with
    | some base_rate => base_rate
    | none =>
        pyOr (lookupQ custom_dex_fees "default")
          (pyOr (lookupQ custom_dex_fees "fee")
            ((custom_dex_fees.map Prod.snd).headI))

/-- The cost breakdown produced by `_calculate_charges` (rounding of the
serialized fields omitted). -/
structure Charges where
  from_dex_fee_percent : ℚ
  to_dex_fee_percent : ℚ
  from_fee_amount : ℚ
  to_fee_amount : ℚ
  total_trading_fees : ℚ
  total_gas_cost_apt : ℚ
  total_gas_cost_usd : ℚ
  slippage_percent : ℚ
  slippage_cost : ℚ
  total_charges : ℚ
  cost_percentage : ℚ
deriving DecidableEq, Repr

/-- `_calculate_charges` on an explicit route. The fee legs, the doubled
swap gas (converted octas → APT → USD at the same APT price), the slippage
band cost and their sum; dividing by a zero trade amount raises
`ZeroDivisionError`, caught and surfaced as a `status: error` payload. -/
def calculate_charges (trade_amount : ℚ) (custom_dex_fees : List (String × ℚ))
    (from_dex to_dex : String) (gas_unit_price : ℕ) (prices : Prices) :
    Except String Charges :=
  let from_dex_fee := resolve_dex_fee custom_dex_fees from_dex
  let to_dex_fee := resolve_dex_fee custom_dex_fees to_dex
  let swap_gas_apt := calculate_gas_cost_apt gas_unit_price
  let total_gas_cost_apt := swap_gas_apt * 2
  let apt_price := prices.apt
  let total_gas_cost_usd := total_gas_cost_apt * apt_price
  let from_fee_amount := trade_amount * (from_dex_fee / 100)
  let to_fee_amount := trade_amount * (to_dex_fee / 100)
  let total_trading_fees := from_fee_amount + to_fee_amount
  let slippage_percent := estimate_slippage trade_amount
  let slippage_cost := trade_amount * (slippage_percent / 100)
  let total_charges := total_trading_fees + total_gas_cost_usd + slippage_cost
  if trade_amount = 0 then
    .error "Charge calculation failed: float division by zero"
  else
    .ok {
      from_dex_fee_percent := from_dex_fee
      to_dex_fee_percent := to_dex_fee
      from_fee_amount := from_fee_amount
      to_fee_amount := to_fee_amount
      total_trading_fees := total_trading_fees
      total_gas_cost_apt := total_gas_cost_apt
      total_gas_cost_usd := total_gas_cost_usd
      slippage_percent := slippage_percent
      slippage_cost := slippage_cost
      total_charges := total_charges
      cost_percentage := total_charges / trade_amount * 100 }

/-- `pair.split("_")`: split a pair name on underscores (performed on the
character list so that it evaluates structurally). -/
def split_tokens (s : String) : List String :=
  (s.toList.splitOn '_').map List.asString

/-- `_is_round_trip_same_pair`: both pairs involve the same unordered token
set (Python compares the `set`s of the `_`-split components; set equality
is mutual containment). -/
def is_round_trip_same_pair (from_pair to_pair : String) : Bool :=
  let from_tokens := split_tokens from_pair
  let to_tokens := split_tokens to_pair
  from_tokens.all (fun t => to_tokens.contains t) &&
    to_tokens.all (fun t => from_tokens.contains t)

/-- The generic placeholder DEX identifiers (`["dex_a", "dex_b"]`). -/
def generic_dexs : List String := ["dex_a", "dex_b"]

/-- `dex_price_factors`: the fixed DEX-specific multiplicative price factors. -/
def dex_price_factors : List (String × ℚ) :=
  [("dex_a", 1), ("dex_b", 1), ("liquidswap", 1),
   ("pancakeswap", 1002/1000), ("thalaswap", 998/1000), ("hippo", 1001/1000)]

/-- `_calculate_price_difference`: the spread model. Returns the assumed
percentage spread of the route, or the magic sentinel `-999` signalling an
invalid price or an impossible round trip on generic DEXs. -/
def calculate_price_difference (prices : Prices)
    (from_pair to_pair from_dex to_dex : String) : ℚ :=
  if prices.apt ≤ 0 ∨ prices.usdc ≤ 0 ∨ prices.usdt ≤ 0 then -999
  else if from_dex ∈ generic_dexs ∧ to_dex ∈ generic_dexs ∧
      is_round_trip_same_pair from_pair to_pair then -999
  else
    let apt_price := prices.apt
    let usdc_price := prices.usdc
    let usdt_price := prices.usdt
    let from_factor := (lookupQ dex_price_factors from_dex).getD 1
    let to_factor := (lookupQ dex_price_factors to_dex).getD 1
    let raw_dex_spread := |from_factor - to_factor| * 100
    let dex_spread :=
      if from_dex ∈ generic_dexs ∧ to_dex ∈ generic_dexs then 0 else raw_dex_spread
    if from_pair = "usdc_apt" ∧ to_pair = "usdt_apt" then
      let usdc_apt_rate := if usdc_price > 0 then apt_price / usdc_price else 0
      let usdt_apt_rate := if usdt_price > 0 then apt_price / usdt_price else 0
      if usdc_apt_rate = 0 ∨ usdt_apt_rate = 0 then -999
      else
        let rate_diff := |usdc_apt_rate - usdt_apt_rate| / usdc_apt_rate * 100
        min (6/10 + rate_diff * (1/10) + dex_spread) 3
    else if from_pair = "usdt_apt" ∧ to_pair = "usdc_apt" then
      let usdt_apt_rate := if usdt_price > 0 then apt_price / usdt_price else 0
      let usdc_apt_rate := if usdc_price > 0 then apt_price / usdc_price else 0
      if usdt_apt_rate = 0 ∨ usdc_apt_rate = 0 then -999
      else
        let rate_diff := |usdt_apt_rate - usdc_apt_rate| / usdt_apt_rate * 100
        min (5/10 + rate_diff * (1/10) + dex_spread) 3
    else if from_pair = "apt_usdc" ∧ to_pair = "apt_usdt" then
      if usdc_price = 0 ∨ usdt_price = 0 then -999
      else
        let stablecoin_diff := |usdc_price - usdt_price| / usdc_price * 100
        min (3/10 + stablecoin_diff + dex_spread) 2
    else if from_pair = "apt_usdt" ∧ to_pair = "apt_usdc" then
      if usdc_price = 0 ∨ usdt_price = 0 then -999
      else
        let stablecoin_diff := |usdt_price - usdc_price| / usdt_price * 100
        min (4/10 + stablecoin_diff + dex_spread) 2
    else
      if apt_price = 0 ∨ usdc_price = 0 ∨ usdt_price = 0 then -999
      else if dex_spread = 0 then 5/100
      else 2/10 + dex_spread

/-- The error message `_check_profitability` returns when the spread model
signals `-999`. -/
def impossible_route_error : String :=
  "Impossible arbitrage scenario detected. Cannot perform round-trip arbitrage on identical DEXs or with invalid token prices."

/-- The `profitability` block of a successful `_check_profitability` result. -/
structure Profitability where
  is_profitable : Bool
  price_difference_percent : ℚ
  gross_profit_usd : ℚ
  total_costs_usd : ℚ
  net_profit_usd : ℚ
  profit_margin_percent : ℚ
  roi_percent : ℚ
deriving DecidableEq, Repr

/-- A successful `_check_profitability` result. -/
structure ProfitCheck where
  profitability : Profitability
  charges : Charges
  recommendation : String
  risk_level : RiskLevel
deriving DecidableEq, Repr

/-- `_check_profitability`: charges, then the spread model (surfacing the
impossible-route error on the `-999` sentinel), then gross/net profit,
margin, EXECUTE/SKIP recommendation and risk tier. -/
def check_profitability (from_pair to_pair : String) (trade_amount : ℚ)
    (custom_dex_fees : List (String × ℚ)) (from_dex to_dex : String)
    (gas_unit_price : ℕ) (prices : Prices) : Except String ProfitCheck :=
  match calculate_charges trade_amount custom_dex_fees from_dex to_dex gas_unit_price prices with
  | .error e => .error e
  | .ok charges =>
    let price_difference := calculate_price_difference prices from_pair to_pair from_dex to_dex
    if price_difference = -999 then .error impossible_route_error
    else
      let gross_profit := trade_amount * (price_difference / 100)
      let total_costs := charges.total_charges
      let net_profit := gross_profit - total_costs
      let is_profitable : Bool := decide (net_profit > 0)
      let profit_margin := if trade_amount > 0 then net_profit / trade_amount * 100 else 0
      .ok {
        profitability := {
          is_profitable := is_profitable
          price_difference_percent := price_difference
          gross_profit_usd := gross_profit
          total_costs_usd := total_costs
          net_profit_usd := net_profit
          profit_margin_percent := profit_margin
          roi_percent := if trade_amount > 0 then net_profit / trade_amount * 100 else 0 }
        charges := charges
        recommendation := if is_profitable ∧ profit_margin > 1/2 then "EXECUTE" else "SKIP"
        risk_level := assess_risk_level profit_margin trade_amount }

/-- The four canonical pair-direction combinations of `_find_possibilities`. -/
def pair_combinations : List (String × String) :=
  [("usdc_apt", "usdt_apt"), ("usdt_apt", "usdc_apt"),
   ("apt_usdc", "apt_usdt"), ("apt_usdt", "apt_usdc")]

/-- The available DEX list extracted by `_find_possibilities`: the
non-generic keys of `custom_dex_fees`, or the two generic placeholders when
only a "Smart Contract" fee was given. -/
def available_dexs (custom_dex_fees : List (String × ℚ)) : List String :=
  let specific := specific_dex_names custom_dex_fees
  if specific = [] ∧ (lookupQ custom_dex_fees "Smart Contract").isSome then
    ["dex_a", "dex_b"]
  else specific

/-- The ordered list of (pair combination, from_dex, to_dex) evaluations
attempted by `_find_possibilities`: each of the four pair combinations
crossed with every ordered pair of distinct available DEXs, in loop order. -/
def route_combos (dexs : List String) : List ((String × String) × String × String) :=
  pair_combinations.flatMap (fun pc =>
    dexs.flatMap (fun d1 =>
      (dexs.filter (fun d2 => d2 ≠ d1)).map (fun d2 => (pc, d1, d2))))

/-- The result payload of `_find_possibilities`. -/
structure Possibilities where
  pairs_checked : ℕ
  evaluations_attempted : ℕ
  total_found : ℕ
  top_opportunities : List ProfitCheck
  best_profit_margin : ℚ
  average_profit_margin : ℚ
  recommended_trades : ℕ
  message : Option String
deriving DecidableEq, Repr

/-- `_find_possibilities`: enumerate all pair combinations over ordered
pairs of distinct provided DEXs, keep the successful evaluations flagged
profitable, sort them by descending profit margin (stable, as Python's
`list.sort` with `reverse=True`), and report the top 10 with summary
statistics. -/
def find_possibilities (trade_amount : ℚ) (custom_dex_fees : List (String × ℚ))
    (gas_unit_price : ℕ) (prices : Prices) : Possibilities :=
  let dexs := available_dexs custom_dex_fees
  if dexs = [] then
    { pairs_checked := 0
      evaluations_attempted := 0
      total_found := 0
      top_opportunities := []
      best_profit_margin := 0
      average_profit_margin := 0
      recommended_trades := 0
      message := some "No DEXs provided in input. Please specify DEX fees to analyze opportunities." }
  else
    let evals := (route_combos dexs).map (fun c =>
      check_profitability c.1.1 c.1.2 trade_amount custom_dex_fees c.2.1 c.2.2
        gas_unit_price prices)
    let opportunities := evals.filterMap (fun r =>
      match r with
      | .ok pr => if pr.profitability.is_profitable then some pr else none
      | .error _ => none)
    let sorted := opportunities.mergeSort (fun a b =>
      decide (b.profitability.profit_margin_percent ≤ a.profitability.profit_margin_percent))
    let top := sorted.take 10
    { pairs_checked := pair_combinations.length * dexs.length * (dexs.length - 1)
      evaluations_attempted := evals.length
      total_found := opportunities.length
      top_opportunities := top
      best_profit_margin :=
        match top with
        | [] => 0
        | o :: _ => o.profitability.profit_margin_percent
      average_profit_margin :=
        if top.length = 0 then 0
        else (top.map (fun o => o.profitability.profit_margin_percent)).sum / top.length
      recommended_trades := (top.filter (fun o => o.recommendation = "EXECUTE")).length
      message := none }

end Detector

namespace Optimizer

/-- `self.dex_fees` of the optimizer. -/
def dex_fees : List (String × ℚ) :=
  [("pancakeswap", 25/100), ("liquidswap", 30/100), ("thalaswap", 20/100), ("hippo", 30/100)]

/-- `self.gas_costs["swap"]` — APT per swap. -/
def gas_costs_swap : ℚ := 1/1000

/-- `_calculate_price_difference` of the optimizer: a fixed assumed spread
depending only on the (from_token, to_token) direction. -/
def calculate_price_difference (from_token to_token : String) : ℚ :=
  if from_token = "usdc" ∧ to_token = "usdt" then 12/10
  else if from_token = "usdt" ∧ to_token = "usdc" then 11/10
  else if from_token = "apt" ∨ to_token = "apt" then 9/10
  else 7/10

/-- `_estimate_slippage_for_amount`: the optimizer's five-band step function. -/
def estimate_slippage_for_amount (trade_amount_usd : ℚ) : ℚ :=
  if trade_amount_usd < 1000 then 2/100
  else if trade_amount_usd < 5000 then 5/100
  else if trade_amount_usd < 25000 then 15/100
  else if trade_amount_usd < 100000 then 35/100
  else 75/100

/-- `_assess_risk_level` of the optimizer. -/
def assess_risk_level (profit_margin : ℚ) (trade_amount_usd : ℚ) : RiskLevel :=
  if profit_margin > 1 ∧ trade_amount_usd < 10000 then .LOW
  else if profit_margin > 1/2 ∧ trade_amount_usd < 50000 then .MEDIUM
  else if profit_margin > 1/5 then .HIGH
  else .VERY_HIGH

/-- The first leg's fee in `_calculate_profit_for_amount`:
`custom_dex_fees.get("from_dex", self.dex_fees.get("pancakeswap", 0.25))`. -/
def resolve_from_dex_fee (custom_dex_fees : List (String × ℚ)) : ℚ :=
  (lookupQ custom_dex_fees "from_dex").getD ((lookupQ dex_fees "pancakeswap").getD (25/100))

/-- The second leg's fee in `_calculate_profit_for_amount`:
`custom_dex_fees.get("to_dex", self.dex_fees.get("liquidswap", 0.30))`. -/
def resolve_to_dex_fee (custom_dex_fees : List (String × ℚ)) : ℚ :=
  (lookupQ custom_dex_fees "to_dex").getD ((lookupQ dex_fees "liquidswap").getD (30/100))

/-- The result of `_calculate_profit_for_amount` (its dict flattened). -/
structure ProfitData where
  is_profitable : Bool
  net_profit_usd : ℚ
  profit_margin_percent : ℚ
  roi_percent : ℚ
  total_costs_usd : ℚ
  risk_level : RiskLevel
  gross_profit : ℚ
  trading_fees : ℚ
  gas_costs : ℚ
  slippage_costs : ℚ
  price_difference_percent : ℚ
deriving DecidableEq, Repr

/-- `_calculate_profit_for_amount`: fees for both legs, fixed gas of two
swaps at `gas_costs_swap` APT, band slippage, the direction-constant
assumed spread, and the derived profit figures. The `apt_amount` argument
is carried by the Python signature but unused by the body. -/
def calculate_profit_for_amount (apt_amount trade_amount_usd : ℚ)
    (from_token to_token : String) (custom_dex_fees : List (String × ℚ))
    (apt_price : ℚ) : ProfitData :=
  let _ := apt_amount
  let from_dex_fee := resolve_from_dex_fee custom_dex_fees
  let to_dex_fee := resolve_to_dex_fee custom_dex_fees
  let from_fee_amount := trade_amount_usd * (from_dex_fee / 100)
  let to_fee_amount := trade_amount_usd * (to_dex_fee / 100)
  let total_trading_fees := from_fee_amount + to_fee_amount
  let total_gas_cost_apt := gas_costs_swap * 2
  let total_gas_cost_usd := total_gas_cost_apt * apt_price
  let slippage_percent := estimate_slippage_for_amount trade_amount_usd
  let slippage_cost := trade_amount_usd * (slippage_percent / 100)
  let total_costs := total_trading_fees + total_gas_cost_usd + slippage_cost
  let price_difference := calculate_price_difference from_token to_token
  let gross_profit := trade_amount_usd * (price_difference / 100)
  let net_profit := gross_profit - total_costs
  let profit_margin := if trade_amount_usd > 0 then net_profit / trade_amount_usd * 100 else 0
  { is_profitable := decide (net_profit > 0)
    net_profit_usd := net_profit
    profit_margin_percent := profit_margin
    roi_percent := if trade_amount_usd > 0 then net_profit / trade_amount_usd * 100 else 0
    total_costs_usd := total_costs
    risk_level := assess_risk_level profit_margin trade_amount_usd
    gross_profit := gross_profit
    trading_fees := total_trading_fees
    gas_costs := total_gas_cost_usd
    slippage_costs := slippage_cost
    price_difference_percent := price_difference }

/-- The bisection loop of `_find_breakeven_amount`, with explicit fuel
(the Python `for _ in range(20)` loop). -/
def find_breakeven_loop (from_token to_token : String)
    (custom_dex_fees : List (String × ℚ)) (apt_price : ℚ) :
    ℕ → ℚ → ℚ → Option ℚ
  | 0, _, _ => none
  | fuel + 1, min_apt, max_apt =>
    let mid_apt := (min_apt + max_apt) / 2
    let trade_amount_usd := mid_apt * apt_price
    let pd := calculate_profit_for_amount mid_apt trade_amount_usd
      from_token to_token custom_dex_fees apt_price
    if |pd.net_profit_usd| < 1/100 then some mid_apt
    else if pd.net_profit_usd < 0 then
      find_breakeven_loop from_token to_token custom_dex_fees apt_price fuel mid_apt max_apt
    else
      find_breakeven_loop from_token to_token custom_dex_fees apt_price fuel min_apt mid_apt

/-- `_find_breakeven_amount`: bisection over `[1, 100000]` APT for at most
20 iterations; `none` means the result reports `found: false` with no
break-even amount. -/
def find_breakeven_amount (from_token to_token : String)
    (custom_dex_fees : List (String × ℚ)) (apt_price : ℚ) : Option ℚ :=
  find_breakeven_loop from_token to_token custom_dex_fees apt_price 20 1 100000

end Optimizer

/-! ### Helper lemmas -/

lemma lookupQ_mem {fees : List (String × ℚ)} {k : String} {v : ℚ}
    (h : lookupQ fees k = some v) : v ∈ fees.map Prod.snd := by
  induction fees with
  | nil => simp [lookupQ] at h
  | cons a t ih =>
    obtain ⟨k', v'⟩ := a
    simp only [lookupQ] at h
    by_cases hk : k' = k
    · rw [if_pos hk] at h
      injection h with h
      simp [h]
    · rw [if_neg hk] at h
      simpa using Or.inr (ih h)

lemma resolve_dex_fee_nonneg {fees : List (String × ℚ)} (dex : String)
    (hf : ∀ pr ∈ fees, 0 ≤ pr.2) : 0 ≤ Detector.resolve_dex_fee fees dex := by
  have hmem : ∀ v ∈ fees.map Prod.snd, 0 ≤ v := by
    intro v hv
    obtain ⟨pr, hpr, rfl⟩ := List.mem_map.mp hv
    exact hf pr hpr
  unfold Detector.resolve_dex_fee
  split_ifs with h1 h2
  · norm_num
  · cases hlk : lookupQ fees dex with
    | none => simp [hlk]; norm_num
    | some v =>
      simp only [hlk, Option.getD_some]
      exact hmem v (lookupQ_mem hlk)
  · cases hsc : lookupQ fees "Smart Contract" with
    | some v =>
      simp only [hsc]
      exact hmem v (lookupQ_mem hsc)
    | none =>
      simp only [hsc]
      have hhead : 0 ≤ (fees.map Prod.snd).headI := by
        rcases fees with _ | ⟨a, t⟩
        · exact absurd rfl h1
        · exact hmem _ (by simp)
      have hp2 : 0 ≤ pyOr (lookupQ fees "fee") ((fees.map Prod.snd).headI) := by
        cases hl : lookupQ fees "fee" with
        | none => simpa [pyOr, hl] using hhead
        | some v =>
          simp only [pyOr, hl]
          split_ifs
          · exact hhead
          · exact hmem v (lookupQ_mem hl)
      cases hl : lookupQ fees "default" with
      | none => simpa [pyOr, hl] using hp2
      | some v =>
        simp only [pyOr, hl]
        split_ifs
        · exact hp2
        · exact hmem v (lookupQ_mem hl)

lemma detector_slippage_pos (a : ℚ) : 0 < Detector.estimate_slippage a := by
  unfold Detector.estimate_slippage
  split_ifs <;> norm_num

lemma detector_slippage_mono {a b : ℚ} (h : a ≤ b) :
    Detector.estimate_slippage a ≤ Detector.estimate_slippage b := by
  unfold Detector.estimate_slippage
  split_ifs <;> linarith

lemma optimizer_slippage_pos (a : ℚ) : 0 < Optimizer.estimate_slippage_for_amount a := by
  unfold Optimizer.estimate_slippage_for_amount
  split_ifs <;> norm_num

lemma optimizer_slippage_mono {a b : ℚ} (h : a ≤ b) :
    Optimizer.estimate_slippage_for_amount a ≤ Optimizer.estimate_slippage_for_amount b := by
  unfold Optimizer.estimate_slippage_for_amount
  split_ifs <;> linarith

/-- Closed form of a successful `_calculate_charges` run: for a nonzero
trade amount, the result is the record of the source's intermediate values. -/
lemma calculate_charges_ok (trade_amount : ℚ) (fees : List (String × ℚ))
    (from_dex to_dex : String) (gas : ℕ) (p : Prices) (h : trade_amount ≠ 0) :
    Detector.calculate_charges trade_amount fees from_dex to_dex gas p = .ok {
      from_dex_fee_percent := Detector.resolve_dex_fee fees from_dex
      to_dex_fee_percent := Detector.resolve_dex_fee fees to_dex
      from_fee_amount := trade_amount * (Detector.resolve_dex_fee fees from_dex / 100)
      to_fee_amount := trade_amount * (Detector.resolve_dex_fee fees to_dex / 100)
      total_trading_fees := trade_amount * (Detector.resolve_dex_fee fees from_dex / 100) +
        trade_amount * (Detector.resolve_dex_fee fees to_dex / 100)
      total_gas_cost_apt := Detector.calculate_gas_cost_apt gas * 2
      total_gas_cost_usd := Detector.calculate_gas_cost_apt gas * 2 * p.apt
      slippage_percent := Detector.estimate_slippage trade_amount
      slippage_cost := trade_amount * (Detector.estimate_slippage trade_amount / 100)
      total_charges := trade_amount * (Detector.resolve_dex_fee fees from_dex / 100) +
        trade_amount * (Detector.resolve_dex_fee fees to_dex / 100) +
        Detector.calculate_gas_cost_apt gas * 2 * p.apt +
        trade_amount * (Detector.estimate_slippage trade_amount / 100)
      cost_percentage := (trade_amount * (Detector.resolve_dex_fee fees from_dex / 100) +
        trade_amount * (Detector.resolve_dex_fee fees to_dex / 100) +
        Detector.calculate_gas_cost_apt gas * 2 * p.apt +
        trade_amount * (Detector.estimate_slippage trade_amount / 100)) / trade_amount * 100 } := by
  unfold Detector.calculate_charges
  simp only [if_neg h]

/-! ### Claim theorems -/

/-- Claim C2 (code_bug evidence): the charge calculation does not reject a
negative trade amount. At trade amount `-100` USD with an empty fee
schedule, default prices and gas price 100, `_calculate_charges` returns a
`status: success` numeric breakdown whose slippage cost and cost percentage
are negative, instead of the explicit error the spec requires for every
non-positive amount (only the zero amount errors, via the caught
`ZeroDivisionError`). -/
theorem C2_negative_amount_not_rejected :
    Detector.calculate_charges (-100) [] "dex_a" "dex_b" 100 default_prices = .ok {
      from_dex_fee_percent := 0
      to_dex_fee_percent := 0
      from_fee_amount := 0
      to_fee_amount := 0
      total_trading_fees := 0
      total_gas_cost_apt := 1/500
      total_gas_cost_usd := 249/10000
      slippage_percent := 1/50
      slippage_cost := -1/50
      total_charges := 49/10000
      cost_percentage := -49/10000 } ∧
    (-49 : ℚ)/10000 < 0 ∧
    Detector.calculate_charges 0 [] "dex_a" "dex_b" 100 default_prices =
      .error "Charge calculation failed: float division by zero" := by
  refine ⟨?_, by norm_num, by simp [Detector.calculate_charges]⟩
  rw [calculate_charges_ok (-100) [] "dex_a" "dex_b" 100 default_prices (by norm_num)]
  have h1 : Detector.resolve_dex_fee [] "dex_a" = 0 := by simp [Detector.resolve_dex_fee]
  have h2 : Detector.resolve_dex_fee [] "dex_b" = 0 := by simp [Detector.resolve_dex_fee]
  have h3 : Detector.estimate_slippage (-100) = 1/50 := by
    norm_num [Detector.estimate_slippage]
  have h4 : Detector.calculate_gas_cost_apt 100 = 1/1000 := by
    norm_num [Detector.calculate_gas_cost_apt, Detector.gas_unit_costs_swap]
  simp only [h1, h2, h3, h4, default_prices]
  norm_num [Detector.Charges.mk.injEq]

/-- Claim C3 counterexample: with an empty FeeSchedule the optimizer's
per-amount profit calculation does not assume zero fees — it resolves the
two legs to the hard-coded defaults 0.25% and 0.30%, so a 1000 USD trade is
charged 5.5 USD of trading fees. -/
theorem C3_counterexample :
    Optimizer.resolve_from_dex_fee [] = 25/100 ∧
    Optimizer.resolve_to_dex_fee [] = 30/100 ∧
    (25 : ℚ)/100 ≠ 0 ∧
    (Optimizer.calculate_profit_for_amount 100 1000 "usdc" "usdt" [] (1245/100)).trading_fees
      = 11/2 ∧
    (11 : ℚ)/2 ≠ 0 := by
  have hfrom : Optimizer.resolve_from_dex_fee [] = 25/100 := rfl
  have hto : Optimizer.resolve_to_dex_fee [] = 30/100 := rfl
  refine ⟨hfrom, hto, by norm_num, ?_, by norm_num⟩
  show (1000 : ℚ) * (Optimizer.resolve_from_dex_fee [] / 100) +
    1000 * (Optimizer.resolve_to_dex_fee [] / 100) = 11/2
  rw [hfrom, hto]
  norm_num

/-- Claim C3 (amended): with an empty FeeSchedule the detector's charge
calculation assumes zero trading fees on both legs; the optimizer's
per-amount profit calculation instead applies the default fees 0.25% and
0.30% to the two legs. -/
theorem C3_amended (from_dex to_dex : String) (amount : ℚ) (gas : ℕ) (p : Prices)
    (hamt : amount ≠ 0) :
    Detector.resolve_dex_fee [] from_dex = 0 ∧
    (∃ c, Detector.calculate_charges amount [] from_dex to_dex gas p = .ok c ∧
      c.from_dex_fee_percent = 0 ∧ c.to_dex_fee_percent = 0 ∧ c.total_trading_fees = 0) ∧
    Optimizer.resolve_from_dex_fee [] = 25/100 ∧
    Optimizer.resolve_to_dex_fee [] = 30/100 := by
  have hz : ∀ d : String, Detector.resolve_dex_fee [] d = 0 := by
    intro d
    unfold Detector.resolve_dex_fee
    simp
  refine ⟨hz from_dex, ⟨_, calculate_charges_ok amount [] from_dex to_dex gas p hamt,
    ?_, ?_, ?_⟩, rfl, rfl⟩ <;>
    simp [hz]

/-- Claim C3 witness: the amended statement instantiated at a concrete
route (trade amount 1000 USD, gas price 100, default prices). -/
theorem C3_witness :
    (1000 : ℚ) ≠ 0 ∧
    (Detector.resolve_dex_fee [] "dex_a" = 0 ∧
    (∃ c, Detector.calculate_charges 1000 [] "dex_a" "dex_b" 100 default_prices = .ok c ∧
      c.from_dex_fee_percent = 0 ∧ c.to_dex_fee_percent = 0 ∧ c.total_trading_fees = 0) ∧
    Optimizer.resolve_from_dex_fee [] = 25/100 ∧
    Optimizer.resolve_to_dex_fee [] = 30/100) :=
  ⟨by norm_num, C3_amended "dex_a" "dex_b" 1000 100 default_prices (by norm_num)⟩

/-- Claim C6: the risk tier is LOW iff margin > 1.0 and amount < 10000,
else MEDIUM iff margin > 0.5 and amount < 50000, else HIGH iff
margin > 0.2, else VERY_HIGH — with strict inequalities throughout, so the
boundary margins 1.0, 0.5 and 0.2 fall to the lower tier; and the
detector's and the optimizer's risk-tier functions coincide. -/
theorem C6_risk_tiers (m a : ℚ) :
    (Detector.assess_risk_level m a = .LOW ↔ (1 < m ∧ a < 10000)) ∧
    (Detector.assess_risk_level m a = .MEDIUM ↔
      (¬(1 < m ∧ a < 10000) ∧ 1/2 < m ∧ a < 50000)) ∧
    (Detector.assess_risk_level m a = .HIGH ↔
      (¬(1 < m ∧ a < 10000) ∧ ¬(1/2 < m ∧ a < 50000) ∧ 1/5 < m)) ∧
    (Detector.assess_risk_level m a = .VERY_HIGH ↔
      (¬(1 < m ∧ a < 10000) ∧ ¬(1/2 < m ∧ a < 50000) ∧ ¬(1/5 < m))) ∧
    Optimizer.assess_risk_level m a = Detector.assess_risk_level m a := by
  unfold Detector.assess_risk_level Optimizer.assess_risk_level
  split_ifs <;> simp_all

/-- Claim C9: both slippage policies (the detector's four-band and the
optimizer's five-band step function) are non-decreasing in the trade
amount, and so are the corresponding slippage costs
`amount × slippage(amount) / 100`. -/
theorem C9_slippage_monotone (a1 a2 : ℚ) (h0 : 0 < a1) (h12 : a1 ≤ a2) :
    Detector.estimate_slippage a1 ≤ Detector.estimate_slippage a2 ∧
    Optimizer.estimate_slippage_for_amount a1 ≤ Optimizer.estimate_slippage_for_amount a2 ∧
    a1 * (Detector.estimate_slippage a1 / 100) ≤ a2 * (Detector.estimate_slippage a2 / 100) ∧
    a1 * (Optimizer.estimate_slippage_for_amount a1 / 100) ≤
      a2 * (Optimizer.estimate_slippage_for_amount a2 / 100) := by
  have hd := detector_slippage_mono h12
  have ho := optimizer_slippage_mono h12
  have hdp := detector_slippage_pos a1
  have hop := optimizer_slippage_pos a1
  refine ⟨hd, ho, ?_, ?_⟩
  · exact mul_le_mul h12 (by linarith) (by positivity) (by linarith)
  · exact mul_le_mul h12 (by linarith) (by positivity) (by linarith)

/-- Claim C9 witness: monotonicity instantiated at amounts 500 and 30000,
which straddle every band boundary of both policies. -/
theorem C9_witness :
    (0 : ℚ) < 500 ∧ (500 : ℚ) ≤ 30000 ∧
    (Detector.estimate_slippage 500 ≤ Detector.estimate_slippage 30000 ∧
    Optimizer.estimate_slippage_for_amount 500 ≤ Optimizer.estimate_slippage_for_amount 30000 ∧
    500 * (Detector.estimate_slippage 500 / 100) ≤
      30000 * (Detector.estimate_slippage 30000 / 100) ∧
    500 * (Optimizer.estimate_slippage_for_amount 500 / 100) ≤
      30000 * (Optimizer.estimate_slippage_for_amount 30000 / 100)) :=
  ⟨by norm_num, by norm_num, C9_slippage_monotone 500 30000 (by norm_num) (by norm_num)⟩

/-- Claim C10: the optimizer's assumed price spread is a function of the
(from_token, to_token) direction alone — exactly 1.2% for usdc→usdt, 1.1%
for usdt→usdc, 0.9% for any direction involving apt and 0.7% otherwise —
and the gross profit computed by `_calculate_profit_for_amount` (used by
the ladder scan and the break-even search) is exactly this constant
percentage of the trade amount, independent of the supplied prices. -/
theorem C10_optimizer_spread_constant :
    Optimizer.calculate_price_difference "usdc" "usdt" = 12/10 ∧
    Optimizer.calculate_price_difference "usdt" "usdc" = 11/10 ∧
    (∀ f t : String, f = "apt" ∨ t = "apt" →
      Optimizer.calculate_price_difference f t = 9/10) ∧
    (∀ f t : String, ¬(f = "usdc" ∧ t = "usdt") → ¬(f = "usdt" ∧ t = "usdc") →
      ¬(f = "apt" ∨ t = "apt") → Optimizer.calculate_price_difference f t = 7/10) ∧
    (∀ apt_amount usd : ℚ, ∀ f t : String, ∀ fees : List (String × ℚ), ∀ p : ℚ,
      (Optimizer.calculate_profit_for_amount apt_amount usd f t fees p).gross_profit =
        usd * (Optimizer.calculate_price_difference f t / 100)) := by
  refine ⟨by simp [Optimizer.calculate_price_difference],
    by simp [Optimizer.calculate_price_difference], ?_, ?_, ?_⟩
  · intro f t h
    unfold Optimizer.calculate_price_difference
    rcases h with rfl | rfl <;> simp
  · intro f t h1 h2 h3
    unfold Optimizer.calculate_price_difference
    split_ifs <;> tauto
  · intro apt_amount usd f t fees p
    rfl

/-- Claim C10 witness: the direction-constant spread instantiated at the
apt→usdt direction (0.9%) and at a direction with no special case (0.7%). -/
theorem C10_witness :
    Optimizer.calculate_price_difference "apt" "usdt" = 9/10 ∧
    Optimizer.calculate_price_difference "usdc" "usdc" = 7/10 :=
  ⟨C10_optimizer_spread_constant.2.2.1 "apt" "usdt" (Or.inl rfl),
   C10_optimizer_spread_constant.2.2.2.1 "usdc" "usdc" (by simp) (by simp) (by simp)⟩

/-- Claim C1 counterexample: a route whose two pairs carry the identical
unordered token set and whose two DEX identifiers are equal — but are the
named DEX "pancakeswap" rather than a generic placeholder — is NOT given
the impossible-route signal: the spread model prices it at the numeric
minimal spread 0.05%. -/
theorem C1_counterexample :
    Detector.is_round_trip_same_pair "usdc_apt" "apt_usdc" = true ∧
    Detector.calculate_price_difference default_prices "usdc_apt" "apt_usdc"
      "pancakeswap" "pancakeswap" = 1/20 ∧
    (1 : ℚ)/20 ≠ -999 := by
  refine ⟨by decide, ?_, by norm_num⟩
  have h1 : ("pancakeswap" : String) ∉ Detector.generic_dexs := by decide
  have hA : ¬("apt_usdc" : String) = "usdt_apt" := by decide
  have hB : ¬("usdc_apt" : String) = "usdt_apt" := by decide
  have hC : ¬("usdc_apt" : String) = "apt_usdc" := by decide
  have hD : ¬("usdc_apt" : String) = "apt_usdt" := by decide
  have hlk : lookupQ Detector.dex_price_factors "pancakeswap" = some (1002/1000) := rfl
  norm_num [Detector.calculate_price_difference, h1, hA, hB, hC, hD, hlk, default_prices]

/-- Claim C1 (amended): the impossible-route signal is produced exactly for
routes whose two DEX identifiers are BOTH generic placeholders
(`dex_a`/`dex_b`) and whose two pairs carry the identical unordered token
set: there the spread model returns the `-999` sentinel and the
profitability evaluator surfaces the impossible-route error; identical
non-generic DEXs fall through to a numeric spread. -/
theorem C1_amended (prices : Prices) (from_pair to_pair from_dex to_dex : String)
    (amount : ℚ) (fees : List (String × ℚ)) (gas : ℕ)
    (h1 : from_dex ∈ Detector.generic_dexs) (h2 : to_dex ∈ Detector.generic_dexs)
    (h3 : Detector.is_round_trip_same_pair from_pair to_pair = true)
    (hamt : amount ≠ 0) :
    Detector.calculate_price_difference prices from_pair to_pair from_dex to_dex = -999 ∧
    Detector.check_profitability from_pair to_pair amount fees from_dex to_dex gas prices =
      .error Detector.impossible_route_error := by
  have hpd : Detector.calculate_price_difference prices from_pair to_pair from_dex to_dex
      = -999 := by
    unfold Detector.calculate_price_difference
    by_cases hv : prices.apt ≤ 0 ∨ prices.usdc ≤ 0 ∨ prices.usdt ≤ 0
    · rw [if_pos hv]
    · rw [if_neg hv, if_pos ⟨h1, h2, h3⟩]
  refine ⟨hpd, ?_⟩
  unfold Detector.check_profitability
  rw [calculate_charges_ok amount fees from_dex to_dex gas prices hamt]
  simp [hpd]

/-- Claim C1 witness: the amended statement instantiated at the concrete
round-trip route usdc_apt → apt_usdc on the generic placeholder dex_a on
both legs. -/
theorem C1_witness :
    ("dex_a" ∈ Detector.generic_dexs ∧ "dex_a" ∈ Detector.generic_dexs ∧
     Detector.is_round_trip_same_pair "usdc_apt" "apt_usdc" = true ∧ (1000 : ℚ) ≠ 0) ∧
    (Detector.calculate_price_difference default_prices "usdc_apt" "apt_usdc"
      "dex_a" "dex_a" = -999 ∧
     Detector.check_profitability "usdc_apt" "apt_usdc" 1000 [] "dex_a" "dex_a" 100
      default_prices = .error Detector.impossible_route_error) :=
  ⟨⟨by decide, by decide, by decide, by norm_num⟩,
   C1_amended default_prices "usdc_apt" "apt_usdc" "dex_a" "dex_a" 1000 [] 100
     (by decide) (by decide) (by decide) (by norm_num)⟩

/-- Claim C4: for every positive trade amount, fee schedule with
non-negative fee percentages and price set with positive prices, the charge
calculation succeeds and every cost component (trading fees, gas,
slippage), as well as the total, is non-negative, and the reported cost
percentage is exactly total cost / amount × 100. -/
theorem C4_charges_nonneg (trade_amount : ℚ) (fees : List (String × ℚ))
    (from_dex to_dex : String) (gas : ℕ) (p : Prices)
    (hamt : 0 < trade_amount) (hfees : ∀ pr ∈ fees, 0 ≤ pr.2)
    (hapt : 0 < p.apt) (husdc : 0 < p.usdc) (husdt : 0 < p.usdt) :
    ∃ c, Detector.calculate_charges trade_amount fees from_dex to_dex gas p = .ok c ∧
      0 ≤ c.total_trading_fees ∧ 0 ≤ c.total_gas_cost_usd ∧ 0 ≤ c.slippage_cost ∧
      0 ≤ c.total_charges ∧
      c.cost_percentage = c.total_charges / trade_amount * 100 := by
  have hff := resolve_dex_fee_nonneg from_dex hfees
  have htf := resolve_dex_fee_nonneg to_dex hfees
  have hsp := detector_slippage_pos trade_amount
  have hgas : 0 ≤ Detector.calculate_gas_cost_apt gas := by
    unfold Detector.calculate_gas_cost_apt
    positivity
  have t1 : (0:ℚ) ≤ trade_amount * (Detector.resolve_dex_fee fees from_dex / 100) :=
    mul_nonneg hamt.le (div_nonneg hff (by norm_num))
  have t2 : (0:ℚ) ≤ trade_amount * (Detector.resolve_dex_fee fees to_dex / 100) :=
    mul_nonneg hamt.le (div_nonneg htf (by norm_num))
  have t3 : (0:ℚ) ≤ Detector.calculate_gas_cost_apt gas * 2 * p.apt :=
    mul_nonneg (mul_nonneg hgas (by norm_num)) hapt.le
  have t4 : (0:ℚ) ≤ trade_amount * (Detector.estimate_slippage trade_amount / 100) :=
    mul_nonneg hamt.le (div_nonneg hsp.le (by norm_num))
  exact ⟨_, calculate_charges_ok trade_amount fees from_dex to_dex gas p hamt.ne',
    add_nonneg t1 t2, t3, t4,
    add_nonneg (add_nonneg (add_nonneg t1 t2) t3) t4, rfl⟩

/-- Claim C4 witness: the cost invariants instantiated at trade amount 1000
USD, the fee schedule {dexX: 0.25, dexY: 0.30}, gas price 100 and the
default prices. -/
theorem C4_witness :
    ((0:ℚ) < 1000 ∧ (∀ pr ∈ [(("dexX" : String)), "dexY"].zip [(25:ℚ)/100, 30/100], 0 ≤ pr.2) ∧
      (0:ℚ) < default_prices.apt ∧ (0:ℚ) < default_prices.usdc ∧ (0:ℚ) < default_prices.usdt) ∧
    (∃ c, Detector.calculate_charges 1000 ([(("dexX" : String)), "dexY"].zip [(25:ℚ)/100, 30/100])
        "dexX" "dexY" 100 default_prices = .ok c ∧
      0 ≤ c.total_trading_fees ∧ 0 ≤ c.total_gas_cost_usd ∧ 0 ≤ c.slippage_cost ∧
      0 ≤ c.total_charges ∧
      c.cost_percentage = c.total_charges / 1000 * 100) := by
  have hfees : ∀ pr ∈ [(("dexX" : String)), "dexY"].zip [(25:ℚ)/100, 30/100], 0 ≤ pr.2 := by
    intro pr hpr
    simp only [List.zip, List.zipWith, List.mem_cons, List.not_mem_nil, or_false] at hpr
    rcases hpr with rfl | rfl <;> norm_num
  exact ⟨⟨by norm_num, hfees, by norm_num [default_prices], by norm_num [default_prices],
      by norm_num [default_prices]⟩,
    C4_charges_nonneg 1000 _ "dexX" "dexY" 100 default_prices (by norm_num) hfees
      (by norm_num [default_prices]) (by norm_num [default_prices])
      (by norm_num [default_prices])⟩

/-- The claim's DEX-spread term: the absolute factor difference from the
fixed DEX factor table × 100, and zero when both DEX identifiers are
generic placeholders. -/
def dex_spread_spec (from_dex to_dex : String) : ℚ :=
  if from_dex ∈ Detector.generic_dexs ∧ to_dex ∈ Detector.generic_dexs then 0
  else |(lookupQ Detector.dex_price_factors from_dex).getD 1 -
    (lookupQ Detector.dex_price_factors to_dex).getD 1| * 100

/-- Claim C5: for positive prices, the spread of the route
usdc_apt → usdt_apt equals
`min (0.6 + 0.1 × relative_rate_difference% + dex_spread) 3.0` with the
cross rates apt/usdc and apt/usdt and the DEX spread drawn from the fixed
factor table (zero when both DEXs are generic placeholders). -/
theorem C5_spread_formula (p : Prices) (from_dex to_dex : String)
    (hapt : 0 < p.apt) (husdc : 0 < p.usdc) (husdt : 0 < p.usdt) :
    Detector.calculate_price_difference p "usdc_apt" "usdt_apt" from_dex to_dex =
      min (6/10 + (1/10) * (|p.apt / p.usdc - p.apt / p.usdt| / (p.apt / p.usdc) * 100) +
        dex_spread_spec from_dex to_dex) 3 := by
  have hv : ¬(p.apt ≤ 0 ∨ p.usdc ≤ 0 ∨ p.usdt ≤ 0) := by
    push_neg
    exact ⟨hapt, husdc, husdt⟩
  have hrt : Detector.is_round_trip_same_pair "usdc_apt" "usdt_apt" = false := by decide
  have hr1 : p.apt / p.usdc ≠ 0 := (div_pos hapt husdc).ne'
  have hr2 : p.apt / p.usdt ≠ 0 := (div_pos hapt husdt).ne'
  unfold Detector.calculate_price_difference
  rw [if_neg hv, if_neg (by simp [hrt])]
  simp only [if_pos husdc, if_pos husdt]
  norm_num [hr1, hr2, dex_spread_spec]
  congr 1
  ring

/-- Invariant of the break-even bisection loop: whatever the fuel and the
inputs, a returned amount is a midpoint that lies within the enclosing
bracket and whose net profit has absolute value below 0.01 USD. -/
lemma breakeven_loop_some {ft tt : String} {fees : List (String × ℚ)} {p : ℚ}
    (fuel : ℕ) (lo hi : ℚ) (hlo : 1 ≤ lo) (hhi : hi ≤ 100000) (hlohi : lo ≤ hi)
    {b : ℚ} (h : Optimizer.find_breakeven_loop ft tt fees p fuel lo hi = some b) :
    1 ≤ b ∧ b ≤ 100000 ∧
      |(Optimizer.calculate_profit_for_amount b (b * p) ft tt fees p).net_profit_usd| < 1/100 := by
  induction fuel generalizing lo hi with
  | zero => simp [Optimizer.find_breakeven_loop] at h
  | succ fuel ih =>
    rw [Optimizer.find_breakeven_loop] at h
    by_cases h1 : |(Optimizer.calculate_profit_for_amount ((lo + hi)/2) ((lo + hi)/2 * p)
        ft tt fees p).net_profit_usd| < 1/100
    · rw [if_pos h1] at h
      injection h with h
      subst h
      exact ⟨by linarith, by linarith, h1⟩
    · rw [if_neg h1] at h
      by_cases h2 : (Optimizer.calculate_profit_for_amount ((lo + hi)/2) ((lo + hi)/2 * p)
          ft tt fees p).net_profit_usd < 0
      · rw [if_pos h2] at h
        exact ih ((lo + hi)/2) hi (by linarith) hhi (by linarith) h
      · rw [if_neg h2] at h
        exact ih lo ((lo + hi)/2) hlo (by linarith) (by linarith) h

/-- Claim C8: the break-even search (a 20-iteration bisection, the fuel of
`find_breakeven_amount`) reports a break-even amount only when it found a
midpoint inside `[1, 100000]` whose net profit has absolute value below
0.01 USD; when no midpoint qualifies within the 20 iterations the loop
returns `none`, surfaced as `found: false` with no approximate value. -/
theorem C8_breakeven (ft tt : String) (fees : List (String × ℚ)) (p : ℚ) (b : ℚ)
    (h : Optimizer.find_breakeven_amount ft tt fees p = some b) :
    1 ≤ b ∧ b ≤ 100000 ∧
      |(Optimizer.calculate_profit_for_amount b (b * p) ft tt fees p).net_profit_usd|
        < 1/100 :=
  breakeven_loop_some 20 1 100000 (by norm_num) (by norm_num) (by norm_num) h

/-- Claim C8 witness: at APT price 1 with leg fees 0.40%/0.45% on the
usdc → usdt direction, the very first midpoint 50000.5 has net profit
−0.002 USD, so the search returns it; the theorem's guarantees hold there. -/
theorem C8_witness :
    Optimizer.find_breakeven_amount "usdc" "usdt" [("from_dex", 2/5), ("to_dex", 9/20)] 1
      = some (100001/2) ∧
    (1 ≤ (100001 : ℚ)/2 ∧ (100001 : ℚ)/2 ≤ 100000 ∧
      |(Optimizer.calculate_profit_for_amount ((100001 : ℚ)/2) ((100001 : ℚ)/2 * 1)
        "usdc" "usdt" [("from_dex", 2/5), ("to_dex", 9/20)] 1).net_profit_usd| < 1/100) := by
  have hnd : ¬("from_dex" : String) = "to_dex" := by decide
  have hpd : (Optimizer.calculate_profit_for_amount (((1:ℚ) + 100000)/2) (((1:ℚ) + 100000)/2 * 1)
      "usdc" "usdt" [("from_dex", 2/5), ("to_dex", 9/20)] 1).net_profit_usd = -1/500 := by
    norm_num [Optimizer.calculate_profit_for_amount, Optimizer.resolve_from_dex_fee,
      Optimizer.resolve_to_dex_fee, Optimizer.estimate_slippage_for_amount,
      Optimizer.calculate_price_difference, Optimizer.gas_costs_swap, lookupQ,
      Optimizer.dex_fees, hnd]
  have hfound : Optimizer.find_breakeven_amount "usdc" "usdt"
      [("from_dex", 2/5), ("to_dex", 9/20)] 1 = some (100001/2) := by
    rw [Optimizer.find_breakeven_amount, show (20:ℕ) = 19 + 1 from rfl,
      Optimizer.find_breakeven_loop]
    rw [if_pos (by rw [hpd]; norm_num [abs_lt])]
    norm_num
  exact ⟨hfound, C8_breakeven "usdc" "usdt" [("from_dex", 2/5), ("to_dex", 9/20)] 1
    (100001/2) hfound⟩

/-- Auxiliary: removing one element of a duplicate-free list by filtering
shortens it by exactly one. -/
lemma length_filter_ne_of_nodup {l : List String} {d : String}
    (hnd : l.Nodup) (hd : d ∈ l) :
    (l.filter (fun x => x ≠ d)).length = l.length - 1 := by
  induction l with
  | nil => cases hd
  | cons a t ih =>
    have hat := List.nodup_cons.mp hnd
    rcases List.mem_cons.mp hd with rfl | hd2
    · rw [List.filter_cons_of_neg (by simp)]
      have heq : t.filter (fun x => x ≠ d) = t := by
        rw [List.filter_eq_self]
        intro x hx
        simpa using (show x ≠ d from fun h => hat.1 (h ▸ hx))
      rw [heq]
      simp
    · have hne : a ≠ d := by
        rintro rfl
        exact hat.1 hd2
      rw [List.filter_cons_of_pos (by simpa using hne)]
      have hlen := ih hat.2 hd2
      have hpos : 0 < t.length := List.length_pos.mpr (List.ne_nil_of_mem hd2)
      simp only [List.length_cons, hlen]
      omega

/-- Auxiliary: the sum of a map that is constant on the list. -/
lemma sum_map_const_on {α : Type} (l : List α) (f : α → ℕ) (n : ℕ)
    (hf : ∀ a ∈ l, f a = n) : (l.map f).sum = l.length * n := by
  induction l with
  | nil => simp
  | cons a t ih =>
    simp only [List.map_cons, List.sum_cons, List.length_cons, hf a (by simp)]
    rw [ih (fun b hb => hf b (by simp [hb]))]
    ring

/-- The enumeration loop of `_find_possibilities` attempts exactly
`4 × n × (n − 1)` (pair, from_dex, to_dex) combinations for `n` distinct
available DEXs. -/
lemma route_combos_length (dexs : List String) (hnd : dexs.Nodup) :
    (Detector.route_combos dexs).length = 4 * dexs.length * (dexs.length - 1) := by
  have hinner : ∀ pc : String × String,
      (dexs.flatMap fun d1 =>
        (dexs.filter (fun d2 => d2 ≠ d1)).map (fun d2 => (pc, d1, d2))).length
      = dexs.length * (dexs.length - 1) := by
    intro pc
    rw [List.length_flatMap]
    have hf : ∀ d1 ∈ dexs,
        (List.length ∘ fun d1 => (dexs.filter (fun d2 => d2 ≠ d1)).map
          (fun d2 => (pc, d1, d2))) d1 = dexs.length - 1 := by
      intro d1 hd1
      show ((dexs.filter (fun d2 => d2 ≠ d1)).map (fun d2 => (pc, d1, d2))).length = _
      rw [List.length_map]
      exact length_filter_ne_of_nodup hnd hd1
    rw [sum_map_const_on _ _ _ hf]
  unfold Detector.route_combos
  rw [List.length_flatMap]
  have hf2 : ∀ pc ∈ Detector.pair_combinations,
      (List.length ∘ fun pc => dexs.flatMap fun d1 =>
        (dexs.filter (fun d2 => d2 ≠ d1)).map (fun d2 => (pc, d1, d2))) pc
      = dexs.length * (dexs.length - 1) := fun pc _ => hinner pc
  rw [sum_map_const_on _ _ _ hf2]
  have h4 : Detector.pair_combinations.length = 4 := rfl
  rw [h4]
  ring

/-- Claim C7: with `n ≥ 2` distinct available DEX identifiers the
opportunity enumerator attempts exactly `4 × n × (n − 1)` profitability
evaluations (and reports that number as `pairs_checked`), keeps only the
evaluations flagged profitable, sorts them by descending profit margin and
returns at most the top 10. -/
theorem C7_enumerator (trade_amount : ℚ) (fees : List (String × ℚ)) (gas : ℕ) (p : Prices)
    (hnd : (Detector.available_dexs fees).Nodup)
    (hn2 : 2 ≤ (Detector.available_dexs fees).length) :
    (Detector.find_possibilities trade_amount fees gas p).evaluations_attempted =
      4 * (Detector.available_dexs fees).length * ((Detector.available_dexs fees).length - 1) ∧
    (Detector.find_possibilities trade_amount fees gas p).pairs_checked =
      4 * (Detector.available_dexs fees).length * ((Detector.available_dexs fees).length - 1) ∧
    (Detector.find_possibilities trade_amount fees gas p).top_opportunities.length ≤ 10 ∧
    (∀ o ∈ (Detector.find_possibilities trade_amount fees gas p).top_opportunities,
      o.profitability.is_profitable = true) ∧
    List.Pairwise (fun a b => b.profitability.profit_margin_percent ≤
      a.profitability.profit_margin_percent)
      (Detector.find_possibilities trade_amount fees gas p).top_opportunities := by
  have hne : Detector.available_dexs fees ≠ [] := by
    intro h
    rw [h] at hn2
    simp at hn2
  unfold Detector.find_possibilities
  simp only [if_neg hne]
  refine ⟨?_, ?_, ?_, ?_, ?_⟩
  · rw [List.length_map, route_combos_length _ hnd]
  · have h4 : Detector.pair_combinations.length = 4 := rfl
    rw [h4]
  · exact List.length_take_le _ _
  · intro o ho
    have ho2 := (List.take_sublist _ _).subset ho
    have ho3 := (List.mergeSort_perm _ _).mem_iff.mp ho2
    obtain ⟨r, hr, hfr⟩ := List.mem_filterMap.mp ho3
    cases r with
    | error e => simp at hfr
    | ok pr =>
      simp only at hfr
      split_ifs at hfr with hp
      injection hfr with hfr
      subst hfr
      exact hp
  · have htrans : ∀ a b c : Detector.ProfitCheck,
        (decide (b.profitability.profit_margin_percent ≤ a.profitability.profit_margin_percent)) = true →
        (decide (c.profitability.profit_margin_percent ≤ b.profitability.profit_margin_percent)) = true →
        (decide (c.profitability.profit_margin_percent ≤ a.profitability.profit_margin_percent)) = true := by
      intro a b c hab hbc
      simp only [decide_eq_true_eq] at hab hbc ⊢
      exact le_trans hbc hab
    have htotal : ∀ a b : Detector.ProfitCheck,
        ((decide (b.profitability.profit_margin_percent ≤ a.profitability.profit_margin_percent)) ||
         (decide (a.profitability.profit_margin_percent ≤ b.profitability.profit_margin_percent))) = true := by
      intro a b
      simp only [Bool.or_eq_true, decide_eq_true_eq]
      exact le_total _ _
    have hsorted := List.sorted_mergeSort htrans htotal
      (((Detector.route_combos (Detector.available_dexs fees)).map (fun c =>
        Detector.check_profitability c.1.1 c.1.2 trade_amount fees c.2.1 c.2.2
          gas p)).filterMap (fun r =>
        match r with
        | .ok pr => if pr.profitability.is_profitable then some pr else none
        | .error _ => none))
    have hsorted2 := hsorted.imp (fun h => of_decide_eq_true h)
    exact hsorted2.sublist (List.take_sublist _ _)

/-- Claim C7 witness: the enumerator contract instantiated at the fee
schedule {dexX: 0.25, dexY: 0.30} (two distinct DEXs, so 8 evaluations),
trade amount 5000 USD, gas price 100 and default prices. -/
theorem C7_witness :
    ((Detector.available_dexs [("dexX", (25:ℚ)/100), ("dexY", 30/100)]).Nodup ∧
      2 ≤ (Detector.available_dexs [("dexX", (25:ℚ)/100), ("dexY", 30/100)]).length) ∧
    ((Detector.find_possibilities 5000 [("dexX", (25:ℚ)/100), ("dexY", 30/100)] 100
        default_prices).evaluations_attempted =
      4 * (Detector.available_dexs [("dexX", (25:ℚ)/100), ("dexY", 30/100)]).length *
        ((Detector.available_dexs [("dexX", (25:ℚ)/100), ("dexY", 30/100)]).length - 1) ∧
    (Detector.find_possibilities 5000 [("dexX", (25:ℚ)/100), ("dexY", 30/100)] 100
        default_prices).pairs_checked =
      4 * (Detector.available_dexs [("dexX", (25:ℚ)/100), ("dexY", 30/100)]).length *
        ((Detector.available_dexs [("dexX", (25:ℚ)/100), ("dexY", 30/100)]).length - 1) ∧
    (Detector.find_possibilities 5000 [("dexX", (25:ℚ)/100), ("dexY", 30/100)] 100
        default_prices).top_opportunities.length ≤ 10 ∧
    (∀ o ∈ (Detector.find_possibilities 5000 [("dexX", (25:ℚ)/100), ("dexY", 30/100)] 100
        default_prices).top_opportunities, o.profitability.is_profitable = true) ∧
    List.Pairwise (fun a b => b.profitability.profit_margin_percent ≤
      a.profitability.profit_margin_percent)
      (Detector.find_possibilities 5000 [("dexX", (25:ℚ)/100), ("dexY", 30/100)] 100
        default_prices).top_opportunities) :=
  ⟨⟨by decide, by decide⟩,
   C7_enumerator 5000 [("dexX", (25:ℚ)/100), ("dexY", 30/100)] 100 default_prices
     (by decide) (by decide)⟩

/-- Claim C5 witness: the spread formula instantiated at the default
prices with the named DEXs pancakeswap and thalaswap. -/
theorem C5_witness :
    ((0:ℚ) < default_prices.apt ∧ (0:ℚ) < default_prices.usdc ∧
      (0:ℚ) < default_prices.usdt) ∧
    Detector.calculate_price_difference default_prices "usdc_apt" "usdt_apt"
        "pancakeswap" "thalaswap" =
      min (6/10 + (1/10) * (|default_prices.apt / default_prices.usdc -
          default_prices.apt / default_prices.usdt| /
          (default_prices.apt / default_prices.usdc) * 100) +
        dex_spread_spec "pancakeswap" "thalaswap") 3 :=
  ⟨⟨by norm_num [default_prices], by norm_num [default_prices], by norm_num [default_prices]⟩,
   C5_spread_formula default_prices "pancakeswap" "thalaswap"
     (by norm_num [default_prices]) (by norm_num [default_prices])
     (by norm_num [default_prices])⟩
